import Mathlib

/-!
Verification of the toshy KDE D-Bus relay service.

Shallow embedding of:
- `src/lib/env.py` (`get_env_info`): the environment prober;
- `src/kde-kwin-dbus-service/toshy_kde_dbus_service.py`: startup precondition
  checks, the environment gate retry loop, the post-gate relay startup
  (qdbus check, kickstart script launch), and the `DBUS_Object` relay
  (`NotifyActiveWindow` / `GetActiveWindow`).

Host state (files, environment variables, process list) is modelled
explicitly; logger calls (`error`, `debug`) are modelled as a list of emitted
diagnostic strings; Python exceptions are modelled as `Except.error`.
-/

/-- A Python environment-info dictionary: association list in insertion
order, string keys and string values (`env_info` in `get_env_info`). -/
abbrev EnvDict : Type := List (String × String)

/-- `dict.get(k)`: first binding of `k`, or `none` (Python `None`). -/
def dictGet (k : String) (d : EnvDict) : Option String :=
  List.lookup k d

/-- Host state read by `get_env_info`: the distro-release files, the
environment variables it consults, and the (optional) process list seen
through psutil. `none` for a file means the file does not exist; `none`
for a variable means it is unset (an empty-string value is `some ""`). -/
structure Host where
  etc_os_release : Option (List String)
  etc_lsb_release : Option (List String)
  etc_arch_release : Bool
  xdg_session_type : Option String
  wayland_display : Option String
  xdg_session_desktop : Option String
  xdg_current_desktop : Option String
  psutil_available : Bool
  process_names : List String
deriving Repr

/-- Python truthiness filter on an optional environment value:
`x or None` — an empty string is falsy and becomes `None`. -/
def pyTruthy : Option String → Option String
  | some s => if s = "" then none else some s
  | none => none

/-- Python `a or b` on two optional string values. -/
def pyOr (a b : Option String) : Option String :=
  match a with
  | some s => if s = "" then b else some s
  | none => b

/-- Python `s.strip()` (ASCII whitespace suffices for the values read). -/
def pyStrip (s : String) : String :=
  String.mk (((s.toList.dropWhile Char.isWhitespace).reverse.dropWhile
    Char.isWhitespace).reverse)

/-- Python `s.strip(c)` for a single character: remove every leading and
trailing occurrence of `c`. -/
def pyStripChar (c : Char) (s : String) : String :=
  String.mk (((s.toList.dropWhile (· == c)).reverse.dropWhile (· == c)).reverse)

/-- Splitting a character list on every occurrence of `c` (Python `split`
with a one-character separator). -/
def splitChar (c : Char) : List Char → List (List Char)
  | [] => [[]]
  | x :: t =>
    if x = c then [] :: splitChar c t
    else
      match splitChar c t with
      | [] => [[x]]
      | h :: r => (x :: h) :: r

/-- Python `line.split(sep)[1]` for the one-character separator used by the
source, when the line is known to contain `sep` (guarded by `startswith`);
defaults to `""` otherwise. -/
def splitIndex1 (sep : Char) (line : String) : String :=
  String.mk ((splitChar sep line.toList).getD 1 [])

/-- Python `s.startswith(pre)`. -/
def pyStartsWith (pre s : String) : Bool :=
  pre.toList.isPrefixOf s.toList

/-- ASCII lowercase of a string, character by character (all strings the
program compares case-insensitively are ASCII). -/
def asciiLower (s : String) : String :=
  String.mk (s.toList.map Char.toLower)

/-- Python `s.casefold()` (ASCII lowering suffices for session types). -/
def pyCasefold (s : String) : String := asciiLower s

/-- Whether `p` occurs as a contiguous sublist of `l`. -/
def listHasSubstr (l p : List Char) : Bool :=
  match l with
  | [] => p.isEmpty
  | _ :: t => p.isPrefixOf l || listHasSubstr t p

/-- `re.search(pat, s, re.I)` for the fixed table keys, none of which uses a
regex metacharacter: case-insensitive substring containment of `pat` in `s`. -/
def reSearchCI (pat s : String) : Bool :=
  listHasSubstr (asciiLower s).toList (asciiLower pat).toList

/-- First value of the table whose key occurs (case-insensitively) in `raw`,
scanning in insertion order — the `for k, v in ...items()` loops with `break`
on first match. -/
def lookupTable (table : List (String × String)) (raw : String) : Option String :=
  match table with
  | [] => none
  | (k, v) :: rest => if reSearchCI k raw then some v else lookupTable rest raw

/-- The `distro_names` override table of `get_env_info`. -/
def distro_names : List (String × String) :=
  [("elementary", "eos"),
   ("Fedora", "fedora"),
   ("Manjaro", "manjaro"),
   ("KDE Neon", "neon"),
   ("Pop!_OS", "popos"),
   ("Ubuntu", "ubuntu")]

/-- The `desktop_env_names` normalization table of `get_env_info`. -/
def desktop_env_names : List (String × String) :=
  [("Budgie", "budgie"),
   ("Cinnamon", "cinnamon"),
   ("Deepin", "deepin"),
   ("Enlightenment", "enlightenment"),
   ("GNOME", "gnome"),
   ("Hyprland", "hypr"),
   ("IceWM", "icewm"),
   ("KDE", "kde"),
   ("LXDE", "lxde"),
   ("LXQt", "lxqt"),
   ("MATE", "mate"),
   ("Pantheon", "pantheon"),
   ("Plasma", "kde"),
   ("SwayWM", "sway"),
   ("Ubuntu", "gnome"),
   ("Unity", "unity"),
   ("Xfce", "xfce")]

/-- Scan of `/etc/os-release` lines: first line starting with `NAME=` or
`PRETTY_NAME=` yields `line.split(sep)[1].strip().strip(quote)`. -/
def osReleaseName : List String → String
  | [] => ""
  | line :: rest =>
    if pyStartsWith "NAME=" line then
      pyStripChar '"' (pyStrip (splitIndex1 '=' line))
    else if pyStartsWith "PRETTY_NAME=" line then
      pyStripChar '"' (pyStrip (splitIndex1 '=' line))
    else osReleaseName rest

/-- Scan of `/etc/lsb-release` lines: `DISTRIB_ID=` yields
`split(sep)[1].strip()`; `DISTRIB_DESCRIPTION=` additionally strips quotes. -/
def lsbReleaseName : List String → String
  | [] => ""
  | line :: rest =>
    if pyStartsWith "DISTRIB_ID=" line then
      pyStrip (splitIndex1 '=' line)
    else if pyStartsWith "DISTRIB_DESCRIPTION=" line then
      pyStripChar '"' (pyStrip (splitIndex1 '=' line))
    else lsbReleaseName rest

/-- The raw distro name `_distro_name`: `/etc/os-release`, else
`/etc/lsb-release`, else `/etc/arch-release`, else the empty string. -/
def distroNameRaw (h : Host) : String :=
  match h.etc_os_release with
  | some lines => osReleaseName lines
  | none =>
    match h.etc_lsb_release with
    | some lines => lsbReleaseName lines
    | none => if h.etc_arch_release then "arch" else ""

/-- The session-type section of `get_env_info`: reads `XDG_SESSION_TYPE`
(empty string is falsy), falls back to `WAYLAND_DISPLAY` with a logged
error, raises `EnvironmentError` when both fail or when the value does not
casefold into the known list `x11 / xorg / wayland`. -/
def sessionTypeCheck (st : String) (log : List String) :
    Except String String × List String :=
  if (pyCasefold st) ∈ ["x11", "xorg", "wayland"] then (.ok st, log)
  else (.error ("ENV: Unknown session type: " ++ st ++ "."), log)

/-- The branch structure of the session-type section around
`sessionTypeCheck`. -/
def sessionTypeResult (h : Host) : Except String String × List String :=
  match pyTruthy h.xdg_session_type with
  | some st => sessionTypeCheck st []
  | none =>
    let log := ["ENV: XDG_SESSION_TYPE should really be set. Are you in a graphical environment?"]
    match h.wayland_display with
    | none =>
      (.error "ENV: Detecting session type from XDG_SESSION_TYPE or WAYLAND_DISPLAY failed.", log)
    | some wd =>
      if wd = "" then
        (.error "ENV: Detecting session type from XDG_SESSION_TYPE or WAYLAND_DISPLAY failed.", log)
      else sessionTypeCheck wd log

/-- The psutil double-check loop of `get_env_info`: scans process names in
order; a KWin / GNOME Shell / sway process overrides a differing guess (with
a diagnostic) and breaks; a process that confirms the guess does not break. -/
def corroborate : List String → String → String × List String
  | [], de => (de, [])
  | p :: rest, de =>
    if p ∈ ["plasmashell", "kwin_ft", "kwin_x11"] then
      if de ≠ "kde" then ("kde", ["Desktop may have been misidentified. KWin detected."])
      else corroborate rest de
    else if p = "gnome-shell" then
      if de ≠ "gnome" then ("gnome", ["Desktop may have been misidentified. GNOME Shell detected."])
      else corroborate rest de
    else if p = "sway" then
      if de ≠ "sway" then ("sway", ["Desktop may have been misidentified. SwayWM detected."])
      else corroborate rest de
    else corroborate rest de

/-- The desktop-environment section of `get_env_info`: raw name from
`XDG_SESSION_DESKTOP or XDG_CURRENT_DESKTOP`; when neither is set (or the
result is empty) two errors are logged and the table scan raises `TypeError`
on the `None` value; otherwise the normalization table is scanned, with raw
fallback plus diagnostic on no match, then the psutil double-check runs (or
its bypass is logged). -/
def desktopEnvResult (h : Host) : Except String String × List String :=
  match pyTruthy (pyOr h.xdg_session_desktop h.xdg_current_desktop) with
  | none =>
    (.error "TypeError: expected string or bytes-like object, got None",
     ["ERROR: Desktop Environment not found in XDG_SESSION_DESKTOP or XDG_CURRENT_DESKTOP.",
      "ERROR: Config file will not be able to adapt automatically to Desktop Environment."])
  | some raw =>
    let step1 : String × List String :=
      match lookupTable desktop_env_names raw with
      | some v => (v, [])
      | none => (raw, ["Desktop Environment not in de_names list! Should fix this."])
    if h.psutil_available then
      let step2 := corroborate h.process_names step1.1
      (.ok step2.1, step1.2 ++ step2.2)
    else
      (.ok step1.1,
       step1.2 ++ ["ENV: The process doublecheck was bypassed because psutil was not imported."])

/-- `get_env_info()` of `src/lib/env.py`: returns the `env_info` dictionary
(keys inserted in source order: `DISTRO_NAME`, `SESSION_TYPE`,
`DESKTOP_ENV`), or the uncaught exception; paired with the list of logger
diagnostics emitted along the way. -/
def get_env_info (h : Host) : Except String EnvDict × List String :=
  let raw := distroNameRaw h
  let DISTRO_NAME := (lookupTable distro_names raw).getD raw
  match sessionTypeResult h with
  | (.error e, log1) => (.error e, log1)
  | (.ok SESSION_TYPE, log1) =>
    match desktopEnvResult h with
    | (.error e, log2) => (.error e, log1 ++ log2)
    | (.ok DESKTOP_ENV, log2) =>
      (.ok [("DISTRO_NAME", DISTRO_NAME),
            ("SESSION_TYPE", SESSION_TYPE),
            ("DESKTOP_ENV", DESKTOP_ENV)],
       log1 ++ log2)

/-- Process-level facts consulted by the import-time precondition checks. -/
structure ProcessEnv where
  os_name : String
  euid : Nat
  platform_system : String
deriving Repr, DecidableEq

/-- Outcome of the import-time precondition checks (lines 40-57). -/
inductive PrecheckOutcome where
  | exit1_root
  | exit1_platform
  | proceed
deriving Repr, DecidableEq

/-- The import-time precondition checks, in source order: exit code 1 when
running as root on a posix host; then exit code 1 when `platform.system()`
equals `Windows` (any other platform value installs signal handlers and
proceeds). -/
def precheck (e : ProcessEnv) : PrecheckOutcome :=
  if e.os_name = "posix" ∧ e.euid = 0 then .exit1_root
  else if e.platform_system ≠ "Windows" then .proceed
  else .exit1_platform

/-- The module-level globals set by `check_environment` via `env_info.get`:
each is `None` when the key is absent from the returned dictionary. -/
structure ServiceGlobals where
  DISTRO_NAME : Option String
  DISTRO_VER : Option String
  SESSION_TYPE : Option String
  DESKTOP_ENV : Option String
deriving Repr, DecidableEq

/-- `check_environment()`: reads the prober dictionary into the globals
(note: it asks for a `DISTRO_VER` key). -/
def check_environment (d : EnvDict) : ServiceGlobals :=
  { DISTRO_NAME := dictGet "DISTRO_NAME" d,
    DISTRO_VER := dictGet "DISTRO_VER" d,
    SESSION_TYPE := dictGet "SESSION_TYPE" d,
    DESKTOP_ENV := dictGet "DESKTOP_ENV" d }

/-- The gate condition of the retry loop (line 85):
`DESKTOP_ENV in [kde, plasma] and SESSION_TYPE == wayland`. -/
def gateMatch (g : ServiceGlobals) : Bool :=
  (g.DESKTOP_ENV == some "kde" || g.DESKTOP_ENV == some "plasma")
    && g.SESSION_TYPE == some "wayland"

/-- What the environment gate can do: crash with an uncaught exception from
the prober, exit with status 0 after the ceiling, or fall through to relay
startup having performed `retries` sleep-and-reprobe iterations. -/
inductive GateOutcome where
  | crash (msg : String)
  | exit0
  | serving (retries : Nat)
deriving Repr, DecidableEq

/-- `true` exactly on the `serving` outcome. -/
def GateOutcome.isServing : GateOutcome → Bool
  | .serving _ => true
  | _ => false

/-- The gate retry loop (lines 78-90), started after the initial
`check_environment()` call. `probe idx` is the result of the `idx`-th call
to `get_env_info` (index 0 is the module-level call before the loop).
Each iteration first tests the ceiling `loop_delay > 8`, then the match;
on mismatch it sleeps `loop_delay`, increments the delay by 2 and reprobes.
Returns the outcome paired with the list of sleep durations performed. -/
def gateAux (probe : Nat → Except String EnvDict) (loop_delay idx : Nat) :
    GateOutcome × List Nat :=
  match probe idx with
  | .error e => (.crash e, [])
  | .ok d =>
    if 8 < loop_delay then (.exit0, [])
    else if gateMatch (check_environment d) then (.serving idx, [])
    else
      let r := gateAux probe (loop_delay + 2) (idx + 1)
      (r.1, loop_delay :: r.2)
termination_by 9 - loop_delay
decreasing_by omega

/-- The whole gate, from the initial probe with `loop_delay = 2`. -/
def gateRun (probe : Nat → Except String EnvDict) : GateOutcome :=
  (gateAux probe 2 0).1

/-- The sleep durations the gate performs. -/
def gateSleeps (probe : Nat → Except String EnvDict) : List Nat :=
  (gateAux probe 2 0).2

/-- A probe stream in which every `get_env_info` call returns a dictionary
(no exception). -/
def pureProbe (f : Nat → EnvDict) : Nat → Except String EnvDict :=
  fun i => .ok (f i)

/-- Host facts consulted between the gate and endpoint registration. -/
structure RelayHost where
  qdbus_qt5_on_path : Bool
  qdbus_on_path : Bool
  kickstart_script_exists : Bool
deriving Repr, DecidableEq

/-- `qdbus_cmd` (line 94): `qdbus-qt5` when found on the path, else `qdbus`. -/
def qdbus_cmd (h : RelayHost) : String :=
  if h.qdbus_qt5_on_path then "qdbus-qt5" else "qdbus"

/-- `shutil.which(qdbus_cmd)` (line 105). -/
def qdbus_available (h : RelayHost) : Bool :=
  if h.qdbus_qt5_on_path then true else h.qdbus_on_path

/-- Outcome of the post-gate startup section (lines 93-128): either the
process crashes with an uncaught exception, or it reaches `main()` and
registers the endpoint. -/
inductive RelayStartOutcome where
  | crash (msg : String)
  | registered
deriving Repr, DecidableEq

/-- The post-gate startup section: the qdbus availability check only prints
(informational either way); then `subprocess.Popen` on the kickstart script
path raises `FileNotFoundError` when the script is missing, and otherwise
launches it fire-and-forget (output discarded, result never consulted). -/
def relay_startup (h : RelayHost) : RelayStartOutcome × List String :=
  let log1 :=
    if qdbus_available h then
      ["Script toshy-dbus-notifyactivewindow loaded: ..."]
    else
      ["Cannot find " ++ qdbus_cmd h ++ ". Please install it to check KWin script status."]
  if h.kickstart_script_exists then (.registered, log1)
  else (.crash "FileNotFoundError: toshy-kwin-script-kickstart.sh", log1)

/-- The mutable relay state: the three attributes of `DBUS_Object`. -/
structure DBUSObjectState where
  caption : String
  resource_class : String
  resource_name : String
deriving Repr, DecidableEq

/-- `DBUS_Object.__init__`: all three attributes start at the sentinel. -/
def initDBUSObject : DBUSObjectState :=
  { caption := "NO_DATA", resource_class := "NO_DATA", resource_name := "NO_DATA" }

/-- Python `str()` on a text value: identity on its text. -/
def pyStr (s : String) : String := s

/-- `NotifyActiveWindow(caption, resource_class, resource_name)`:
unconditionally overwrites the three attributes with `str(...)` of the
arguments. -/
def NotifyActiveWindow (s : DBUSObjectState)
    (caption resource_class resource_name : String) : DBUSObjectState :=
  { s with
    caption := pyStr caption,
    resource_class := pyStr resource_class,
    resource_name := pyStr resource_name }

/-- `GetActiveWindow()`: returns the dictionary built from the three
attributes, keys in source order. -/
def GetActiveWindow (s : DBUSObjectState) : EnvDict :=
  [("caption", s.caption),
   ("resource_class", s.resource_class),
   ("resource_name", s.resource_name)]

/-- A call arriving at the relay endpoint. -/
inductive Call where
  | notifyCall (caption resource_class resource_name : String)
  | queryCall
deriving Repr, DecidableEq

/-- Dispatch of one call against the relay state (`GetActiveWindow` has no
side effect on the state). -/
def dispatch (s : DBUSObjectState) : Call → DBUSObjectState
  | .notifyCall a b c => NotifyActiveWindow s a b c
  | .queryCall => s

/-- The relay state after serving a sequence of calls, in order, from the
freshly initialized object. -/
def runTrace (t : List Call) : DBUSObjectState :=
  t.foldl dispatch initDBUSObject

/-- The arguments of the most recent notify call in a trace, if any. -/
def lastNotify (t : List Call) : Option (String × String × String) :=
  t.foldl
    (fun acc c =>
      match c with
      | .notifyCall a b c => some (a, b, c)
      | .queryCall => acc)
    none

/-- The state a pending last-notify record produces from a base state. -/
def applyLast (acc : Option (String × String × String)) (s : DBUSObjectState) :
    DBUSObjectState :=
  match acc with
  | some (a, b, c) => { caption := a, resource_class := b, resource_name := c }
  | none => s

/-- The accumulator step of `lastNotify`. -/
def lastNotifyStep (acc : Option (String × String × String)) (c : Call) :
    Option (String × String × String) :=
  match c with
  | .notifyCall a b c => some (a, b, c)
  | .queryCall => acc

/-- A snapshot dictionary matching the gate requirement. -/
def dictKdeWayland : EnvDict :=
  [("DISTRO_NAME", "fedora"), ("SESSION_TYPE", "wayland"), ("DESKTOP_ENV", "kde")]

/-- A snapshot dictionary failing the gate requirement. -/
def dictGnomeX11 : EnvDict :=
  [("DISTRO_NAME", "fedora"), ("SESSION_TYPE", "x11"), ("DESKTOP_ENV", "gnome")]

/-- A host probed before the graphical session exports a session type. -/
def hostNoSession : Host :=
  { etc_os_release := none,
    etc_lsb_release := none,
    etc_arch_release := false,
    xdg_session_type := none,
    wayland_display := none,
    xdg_session_desktop := some "KDE",
    xdg_current_desktop := none,
    psutil_available := false,
    process_names := [] }

/-- Hosts for the normalization scenarios: raw desktop name as reported by
the session manager, wayland session, no psutil corroboration. -/
def hostPlasma : Host :=
  { etc_os_release := none,
    etc_lsb_release := none,
    etc_arch_release := false,
    xdg_session_type := some "wayland",
    wayland_display := none,
    xdg_session_desktop := some "Plasma",
    xdg_current_desktop := none,
    psutil_available := false,
    process_names := [] }

/-- Host reporting the raw desktop name `SwayWM`. -/
def hostSway : Host :=
  { hostPlasma with xdg_session_desktop := some "SwayWM" }

/-- Host reporting a raw desktop name matching no table entry. -/
def hostWeston : Host :=
  { hostPlasma with xdg_session_desktop := some "Weston" }

/-- Host whose session manager reports the `xorg` session type. -/
def hostXorg : Host :=
  { hostPlasma with xdg_session_type := some "xorg", xdg_session_desktop := some "KDE" }

/-! ## Theorems -/

/-- One unfolding of the gate loop when the probe yields a dictionary. -/
theorem gateAux_ok (probe : Nat → Except String EnvDict) (loop_delay idx : Nat)
    (d : EnvDict) (hp : probe idx = .ok d) :
    gateAux probe loop_delay idx =
      (if 8 < loop_delay then (.exit0, [])
       else if gateMatch (check_environment d) then (.serving idx, [])
       else
         let r := gateAux probe (loop_delay + 2) (idx + 1)
         (r.1, loop_delay :: r.2)) := by
  rw [gateAux, hp]

/-- One unfolding of the gate loop when the probe raises: the exception is
uncaught and the process dies there. -/
theorem gateAux_err (probe : Nat → Except String EnvDict) (loop_delay idx : Nat)
    (e : String) (hp : probe idx = .error e) :
    gateAux probe loop_delay idx = (.crash e, []) := by
  rw [gateAux, hp]

/-- Full unfolding of the gate over a probe stream that always yields a
dictionary: the match is tested for probes 0 to 3 only, one sleep per
mismatch, and the ceiling ends the loop at the fifth iteration. -/
theorem gateAux_pure_eq (f : Nat → EnvDict) :
    gateAux (pureProbe f) 2 0 =
      if gateMatch (check_environment (f 0)) then (.serving 0, [])
      else if gateMatch (check_environment (f 1)) then (.serving 1, [2])
      else if gateMatch (check_environment (f 2)) then (.serving 2, [2, 4])
      else if gateMatch (check_environment (f 3)) then (.serving 3, [2, 4, 6])
      else (.exit0, [2, 4, 6, 8]) := by
  have e0 := gateAux_ok (pureProbe f) 2 0 (f 0) rfl
  have e1 := gateAux_ok (pureProbe f) 4 1 (f 1) rfl
  have e2 := gateAux_ok (pureProbe f) 6 2 (f 2) rfl
  have e3 := gateAux_ok (pureProbe f) 8 3 (f 3) rfl
  have e4 := gateAux_ok (pureProbe f) 10 4 (f 4) rfl
  norm_num at e0 e1 e2 e3 e4
  rw [e0]
  cases h0 : gateMatch (check_environment (f 0)) <;>
    simp only [h0, Bool.false_eq_true, ite_false, ite_true]
  rw [e1]
  cases h1 : gateMatch (check_environment (f 1)) <;>
    simp only [h1, Bool.false_eq_true, ite_false, ite_true]
  rw [e2]
  cases h2 : gateMatch (check_environment (f 2)) <;>
    simp only [h2, Bool.false_eq_true, ite_false, ite_true]
  rw [e3]
  cases h3 : gateMatch (check_environment (f 3)) <;>
    simp only [h3, Bool.false_eq_true, ite_false, ite_true]
  rw [e4]

/-- The gate outcome over an exception-free probe stream, as a decision
tree on the first four probed snapshots. -/
theorem gateRun_pure_cases (f : Nat → EnvDict) :
    gateRun (pureProbe f) =
      if gateMatch (check_environment (f 0)) then .serving 0
      else if gateMatch (check_environment (f 1)) then .serving 1
      else if gateMatch (check_environment (f 2)) then .serving 2
      else if gateMatch (check_environment (f 3)) then .serving 3
      else .exit0 := by
  show (gateAux (pureProbe f) 2 0).1 = _
  rw [gateAux_pure_eq]
  cases h0 : gateMatch (check_environment (f 0)) <;>
    cases h1 : gateMatch (check_environment (f 1)) <;>
      cases h2 : gateMatch (check_environment (f 2)) <;>
        cases h3 : gateMatch (check_environment (f 3)) <;>
          simp [h0, h1, h2, h3]

/-- Dispatching a call sequence from a state described by a pending
last-notify record commutes with folding the record. -/
theorem foldl_dispatch_applyLast (t : List Call) (s : DBUSObjectState)
    (acc : Option (String × String × String)) :
    t.foldl dispatch (applyLast acc s) = applyLast (t.foldl lastNotifyStep acc) s := by
  induction t generalizing acc with
  | nil => rfl
  | cons c t ih =>
    cases c with
    | notifyCall a b c =>
      show t.foldl dispatch (NotifyActiveWindow (applyLast acc s) a b c) = _
      have : NotifyActiveWindow (applyLast acc s) a b c = applyLast (some (a, b, c)) s := by
        cases acc <;> rfl
      rw [this]
      exact ih (some (a, b, c))
    | queryCall => exact ih acc

/-- The relay state after a trace is determined by the most recent notify
call, or is the initial state when there is none. -/
theorem runTrace_eq_applyLast (t : List Call) :
    runTrace t = applyLast (lastNotify t) initDBUSObject := by
  have := foldl_dispatch_applyLast t initDBUSObject none
  simpa [runTrace, lastNotify, lastNotifyStep, applyLast] using this

/-- Claim C1: for every call sequence dispatched to the relay, a subsequent
`GetActiveWindow()` returns exactly the mapping built, via `str`, from the
arguments of the most recent `NotifyActiveWindow` call, regardless of
interleaved `GetActiveWindow` calls (last write wins, no history). -/
theorem C1_last_write_wins (t : List Call) (a b c : String)
    (h : lastNotify t = some (a, b, c)) :
    GetActiveWindow (runTrace t) =
      [("caption", pyStr a), ("resource_class", pyStr b), ("resource_name", pyStr c)] := by
  rw [runTrace_eq_applyLast, h]
  rfl

/-- Witness for C1 at a concrete trace with interleaved queries. -/
theorem C1_last_write_wins_witness :
    GetActiveWindow (runTrace
        [.notifyCall "Terminal" "konsole" "konsole",
         .queryCall,
         .notifyCall "Firefox" "firefox" "Firefox",
         .queryCall]) =
      [("caption", "Firefox"), ("resource_class", "firefox"), ("resource_name", "Firefox")] :=
  C1_last_write_wins _ "Firefox" "firefox" "Firefox" (by decide)

/-- Claim C3: `GetActiveWindow()` before any `NotifyActiveWindow` returns
the sentinel mapping of three `NO_DATA` values. -/
theorem C3_sentinel_before_notify (t : List Call) (h : lastNotify t = none) :
    GetActiveWindow (runTrace t) =
      [("caption", "NO_DATA"), ("resource_class", "NO_DATA"), ("resource_name", "NO_DATA")] := by
  rw [runTrace_eq_applyLast, h]
  rfl

/-- Witness for C3 at a trace of two queries and no notify. -/
theorem C3_sentinel_before_notify_witness :
    GetActiveWindow (runTrace [.queryCall, .queryCall]) =
      [("caption", "NO_DATA"), ("resource_class", "NO_DATA"), ("resource_name", "NO_DATA")] :=
  C3_sentinel_before_notify [.queryCall, .queryCall] (by decide)

/-- Claim C2: over a run in which every probe yields a snapshot, the gate
falls through to relay startup (registers the endpoint) precisely when one
of the snapshots compared within the retry ceiling — probes 0 to 3 —
satisfies `DESKTOP_ENV in [kde, plasma]` and `SESSION_TYPE == wayland`;
otherwise the process exits with status 0, never reaching registration. -/
theorem C2_gate_iff (f : Nat → EnvDict) :
    ((gateRun (pureProbe f)).isServing = true ↔
      ∃ i, i < 4 ∧ gateMatch (check_environment (f i)) = true) ∧
    ((gateRun (pureProbe f)).isServing = false → gateRun (pureProbe f) = .exit0) := by
  rw [gateRun_pure_cases f]
  cases h0 : gateMatch (check_environment (f 0))
  case true => exact ⟨by simp [GateOutcome.isServing, h0]; exact ⟨0, by omega, h0⟩, by simp [GateOutcome.isServing]⟩
  all_goals cases h1 : gateMatch (check_environment (f 1))
  case true => exact ⟨by simp [GateOutcome.isServing, h0, h1]; exact ⟨1, by omega, h1⟩, by simp [h0, GateOutcome.isServing]⟩
  all_goals cases h2 : gateMatch (check_environment (f 2))
  case true => exact ⟨by simp [GateOutcome.isServing, h0, h1, h2]; exact ⟨2, by omega, h2⟩, by simp [h0, h1, GateOutcome.isServing]⟩
  all_goals cases h3 : gateMatch (check_environment (f 3))
  case true => exact ⟨by simp [GateOutcome.isServing, h0, h1, h2, h3]; exact ⟨3, by omega, h3⟩, by simp [h0, h1, h2, GateOutcome.isServing]⟩
  refine ⟨⟨fun hs => ?_, fun ⟨i, hi, hm⟩ => ?_⟩, fun _ => by simp [h0, h1, h2, h3]⟩
  · simp [h0, h1, h2, h3, GateOutcome.isServing] at hs
  · interval_cases i <;> simp_all

/-- Witness for C2: an always-matching stream serves; an always-mismatching
stream exits 0. -/
theorem C2_gate_iff_witness :
    (gateRun (pureProbe (fun _ => dictKdeWayland))).isServing = true ∧
    gateRun (pureProbe (fun _ => dictGnomeX11)) = .exit0 :=
  ⟨(C2_gate_iff (fun _ => dictKdeWayland)).1.mpr ⟨0, by omega, by decide⟩,
   (C2_gate_iff (fun _ => dictGnomeX11)).2 (by rw [gateRun_pure_cases]; decide)⟩

/-- Claim C4: the delay sequence starts at 2, steps by 2 and stops past the
ceiling 8 — every run sleeps some prefix of `[2, 4, 6, 8]` (hence a
monotonically non-decreasing, bounded schedule); a never-matching snapshot
stream yields exactly four mismatched gate checks (one sleep each) and then
exit 0; a stream matching first on the third probe performs exactly two
sleep-and-reprobe retries and then proceeds to serving. -/
theorem C4_delay_schedule :
    (∀ probe : Nat → Except String EnvDict,
       ∃ n, gateSleeps probe = [2, 4, 6, 8].take n)
  ∧ (∀ f : Nat → EnvDict, (∀ i, gateMatch (check_environment (f i)) = false) →
       gateAux (pureProbe f) 2 0 = (.exit0, [2, 4, 6, 8]))
  ∧ (∀ f : Nat → EnvDict,
       gateMatch (check_environment (f 0)) = false →
       gateMatch (check_environment (f 1)) = false →
       gateMatch (check_environment (f 2)) = true →
       gateAux (pureProbe f) 2 0 = (.serving 2, [2, 4])) := by
  refine ⟨?_, ?_, ?_⟩
  · intro probe
    unfold gateSleeps
    have tail4 : (gateAux probe 10 4).2 = [] := by
      rcases hp4 : probe 4 with e4 | d4
      · rw [gateAux_err probe 10 4 e4 hp4]
      · rw [gateAux_ok probe 10 4 d4 hp4]; norm_num
    rcases hp0 : probe 0 with e0 | d0
    · exact ⟨0, by rw [gateAux_err probe 2 0 e0 hp0]; rfl⟩
    have s0 := gateAux_ok probe 2 0 d0 hp0
    norm_num at s0
    cases h0 : gateMatch (check_environment d0)
    case true => exact ⟨0, by rw [s0]; simp [h0]⟩
    rw [h0] at s0; simp only [Bool.false_eq_true, ite_false] at s0
    rcases hp1 : probe 1 with e1 | d1
    · exact ⟨1, by rw [s0, gateAux_err probe 4 1 e1 hp1]; rfl⟩
    have s1 := gateAux_ok probe 4 1 d1 hp1
    norm_num at s1
    cases h1 : gateMatch (check_environment d1)
    case true => exact ⟨1, by rw [s0, s1]; simp [h1]⟩
    rw [h1] at s1; simp only [Bool.false_eq_true, ite_false] at s1
    rcases hp2 : probe 2 with e2 | d2
    · exact ⟨2, by rw [s0, s1, gateAux_err probe 6 2 e2 hp2]; rfl⟩
    have s2 := gateAux_ok probe 6 2 d2 hp2
    norm_num at s2
    cases h2 : gateMatch (check_environment d2)
    case true => exact ⟨2, by rw [s0, s1, s2]; simp [h2]⟩
    rw [h2] at s2; simp only [Bool.false_eq_true, ite_false] at s2
    rcases hp3 : probe 3 with e3 | d3
    · exact ⟨3, by rw [s0, s1, s2, gateAux_err probe 8 3 e3 hp3]; rfl⟩
    have s3 := gateAux_ok probe 8 3 d3 hp3
    norm_num at s3
    cases h3 : gateMatch (check_environment d3)
    case true => exact ⟨3, by rw [s0, s1, s2, s3]; simp [h3]⟩
    rw [h3] at s3; simp only [Bool.false_eq_true, ite_false] at s3
    exact ⟨4, by rw [s0, s1, s2, s3]; simp [tail4]⟩
  · intro f hf
    rw [gateAux_pure_eq f]
    simp [hf 0, hf 1, hf 2, hf 3]
  · intro f h0 h1 h2
    rw [gateAux_pure_eq f]
    simp [h0, h1, h2]

/-- Witness for C4 at concrete streams: a never-matching stream and a
third-probe-matching stream. -/
theorem C4_delay_schedule_witness :
    (∃ n, gateSleeps (pureProbe (fun _ => dictGnomeX11)) = [2, 4, 6, 8].take n)
  ∧ gateAux (pureProbe (fun _ => dictGnomeX11)) 2 0 = (.exit0, [2, 4, 6, 8])
  ∧ gateAux (pureProbe (fun i => if i = 2 then dictKdeWayland else dictGnomeX11)) 2 0 =
      (.serving 2, [2, 4]) :=
  ⟨C4_delay_schedule.1 (pureProbe (fun _ => dictGnomeX11)),
   C4_delay_schedule.2.1 (fun _ => dictGnomeX11)
     (by intro i; show gateMatch (check_environment dictGnomeX11) = false; decide),
   C4_delay_schedule.2.2 (fun i => if i = 2 then dictKdeWayland else dictGnomeX11)
     (by decide) (by decide) (by decide)⟩

/-- Claim C10: when the first four probed snapshots all mismatch, the gate
exits with status 0 even though a fifth snapshot is obtained after the delay
passes the ceiling — that final snapshot is never compared, so a matching
fifth snapshot does not prevent the exit. -/
theorem C10_final_probe_never_compared (f : Nat → EnvDict)
    (h0 : gateMatch (check_environment (f 0)) = false)
    (h1 : gateMatch (check_environment (f 1)) = false)
    (h2 : gateMatch (check_environment (f 2)) = false)
    (h3 : gateMatch (check_environment (f 3)) = false)
    (h4 : gateMatch (check_environment (f 4)) = true) :
    gateRun (pureProbe f) = .exit0 := by
  rw [gateRun_pure_cases f]
  simp [h0, h1, h2, h3]

/-- Witness for C10: a stream whose fifth snapshot (index 4) matches while
the first four do not still exits 0. -/
theorem C10_final_probe_never_compared_witness :
    gateRun (pureProbe (fun i => if i = 4 then dictKdeWayland else dictGnomeX11)) = .exit0 :=
  C10_final_probe_never_compared (fun i => if i = 4 then dictKdeWayland else dictGnomeX11)
    (by decide) (by decide) (by decide) (by decide) (by decide)

/-- Unset `XDG_SESSION_TYPE` and unset `WAYLAND_DISPLAY` make the
session-type section raise `EnvironmentError` (after logging). -/
theorem session_unset_err (h : Host) (hx : h.xdg_session_type = none)
    (hw : h.wayland_display = none) :
    sessionTypeResult h =
      (.error "ENV: Detecting session type from XDG_SESSION_TYPE or WAYLAND_DISPLAY failed.",
       ["ENV: XDG_SESSION_TYPE should really be set. Are you in a graphical environment?"]) := by
  unfold sessionTypeResult
  rw [hx, hw]
  rfl

/-- A session-type exception propagates out of `get_env_info` uncaught. -/
theorem get_env_info_session_err (h : Host) (e : String) (log : List String)
    (hs : sessionTypeResult h = (.error e, log)) :
    (get_env_info h).1 = .error e := by
  unfold get_env_info
  rw [hs]

/-- Claim C5 (amended): a probe that yields a snapshot is never fatal — the
gate only serves or exits 0 over exception-free streams — but a probe taken
with `XDG_SESSION_TYPE` unset (and `WAYLAND_DISPLAY` unset) does not yield a
snapshot: `get_env_info` raises `EnvironmentError`, the exception is
uncaught, and the process terminates on that very probe with no retry. -/
theorem C5_probe_failure_behavior :
    (∀ (f : Nat → EnvDict) (e : String), gateRun (pureProbe f) ≠ .crash e)
  ∧ (∀ h : Host, h.xdg_session_type = none → h.wayland_display = none →
       (get_env_info h).1 =
         .error "ENV: Detecting session type from XDG_SESSION_TYPE or WAYLAND_DISPLAY failed." ∧
       gateAux (fun _ => (get_env_info h).1) 2 0 =
         (.crash "ENV: Detecting session type from XDG_SESSION_TYPE or WAYLAND_DISPLAY failed.",
          [])) := by
  constructor
  · intro f e
    rw [gateRun_pure_cases f]
    split_ifs <;> simp
  · intro h hx hw
    have hs := session_unset_err h hx hw
    have hg := get_env_info_session_err h _ _ hs
    exact ⟨hg, gateAux_err _ 2 0 _ hg⟩

/-- Witness for C5 at concrete inputs. -/
theorem C5_probe_failure_behavior_witness :
    gateRun (pureProbe (fun _ => dictGnomeX11)) ≠ .crash "boom" ∧
    (get_env_info hostNoSession).1 =
      .error "ENV: Detecting session type from XDG_SESSION_TYPE or WAYLAND_DISPLAY failed." ∧
    gateAux (fun _ => (get_env_info hostNoSession).1) 2 0 =
      (.crash "ENV: Detecting session type from XDG_SESSION_TYPE or WAYLAND_DISPLAY failed.",
       []) :=
  ⟨C5_probe_failure_behavior.1 (fun _ => dictGnomeX11) "boom",
   C5_probe_failure_behavior.2 hostNoSession rfl rfl⟩

/-- Counterexample to C5 as stated: with `XDG_SESSION_TYPE` unset the very
first probe kills the process (uncaught `EnvironmentError`) — no retry is
ever performed (empty sleep list), rather than the probe counting as a
non-fatal failed attempt retried on the fixed schedule. -/
theorem C5_counterexample :
    gateAux (fun _ => (get_env_info hostNoSession).1) 2 0 =
      (.crash "ENV: Detecting session type from XDG_SESSION_TYPE or WAYLAND_DISPLAY failed.",
       []) :=
  gateAux_err _ 2 0 _ rfl

/-- Counterexample to C6 as stated: on a Darwin host (non-Linux, not
Windows, not root) the import-time checks proceed instead of exiting with
code 1. -/
theorem C6_counterexample :
    precheck { os_name := "posix", euid := 1000, platform_system := "Darwin" } = .proceed := by
  decide

/-- Claim C6 (amended): the process exits with code 1 exactly when it runs
as root on a posix host (checked first) or when `platform.system()` equals
`Windows`; every other platform value — Darwin included — passes the check
and proceeds to create relay state. -/
theorem C6_precheck_cases (e : ProcessEnv) :
    (precheck e = .exit1_root ↔ e.os_name = "posix" ∧ e.euid = 0)
  ∧ (precheck e = .exit1_platform ↔
       ¬(e.os_name = "posix" ∧ e.euid = 0) ∧ e.platform_system = "Windows")
  ∧ (precheck e = .proceed ↔
       ¬(e.os_name = "posix" ∧ e.euid = 0) ∧ e.platform_system ≠ "Windows") := by
  unfold precheck
  split_ifs with hr hp <;> simp_all

/-- Witness for C6 at concrete process environments. -/
theorem C6_precheck_cases_witness :
    precheck { os_name := "posix", euid := 0, platform_system := "Linux" } = .exit1_root ∧
    precheck { os_name := "nt", euid := 500, platform_system := "Windows" } = .exit1_platform :=
  ⟨(C6_precheck_cases _).1.mpr (by decide),
   (C6_precheck_cases _).2.1.mpr (by decide)⟩

/-- Counterexample to C7 as stated: with the kickstart script missing,
`subprocess.Popen` raises `FileNotFoundError` and the process dies before
registering the endpoint, rather than degrading gracefully. -/
theorem C7_counterexample :
    (relay_startup { qdbus_qt5_on_path := true, qdbus_on_path := true,
                     kickstart_script_exists := false }).1 =
      .crash "FileNotFoundError: toshy-kwin-script-kickstart.sh" := rfl

/-- Claim C7 (amended): a missing qdbus query tool is non-fatal — it is only
logged and the relay still reaches endpoint registration (provided the
kickstart script file exists; a launched script's own outcome is never
consulted) — but a missing kickstart script file is fatal: `Popen` raises
`FileNotFoundError` before registration. -/
theorem C7_helper_failures (h : RelayHost) :
    (h.kickstart_script_exists = true → (relay_startup h).1 = .registered)
  ∧ (qdbus_available h = false →
       (relay_startup h).2 =
         ["Cannot find " ++ qdbus_cmd h ++ ". Please install it to check KWin script status."])
  ∧ (h.kickstart_script_exists = false →
       (relay_startup h).1 = .crash "FileNotFoundError: toshy-kwin-script-kickstart.sh") := by
  refine ⟨fun hk => ?_, fun hq => ?_, fun hk => ?_⟩
  · simp [relay_startup, hk]
  · simp [relay_startup, hq, apply_ite (Prod.snd (α := RelayStartOutcome) (β := List String))]
  · simp [relay_startup, hk]

/-- Witness for C7: qdbus entirely missing but script present — the relay
registers and logs the missing tool. -/
theorem C7_helper_failures_witness :
    (relay_startup { qdbus_qt5_on_path := false, qdbus_on_path := false,
                     kickstart_script_exists := true }).1 = .registered ∧
    (relay_startup { qdbus_qt5_on_path := false, qdbus_on_path := false,
                     kickstart_script_exists := true }).2 =
      ["Cannot find qdbus. Please install it to check KWin script status."] :=
  ⟨(C7_helper_failures _).1 rfl,
   by rw [(C7_helper_failures { qdbus_qt5_on_path := false, qdbus_on_path := false,
                                kickstart_script_exists := true }).2.1 rfl]
      rfl⟩

/-- A set `XDG_SESSION_TYPE` with a known casefolded value passes the
session-type section unchanged, with no diagnostics. -/
theorem sessionTypeResult_some_ok (h : Host) (st : String)
    (h1 : h.xdg_session_type = some st) (h2 : st ≠ "")
    (h3 : pyCasefold st ∈ ["x11", "xorg", "wayland"]) :
    sessionTypeResult h = (.ok st, []) := by
  unfold sessionTypeResult sessionTypeCheck
  rw [h1]
  simp [pyTruthy, h2, h3]

/-- The desktop-environment section when `XDG_SESSION_DESKTOP` holds a
non-empty raw name and psutil is unavailable: table value (or raw fallback
plus diagnostic) and the bypass log line. -/
theorem desktopEnvResult_nopsutil (h : Host) (raw : String)
    (h1 : h.xdg_session_desktop = some raw) (h2 : raw ≠ "")
    (h3 : h.psutil_available = false) :
    desktopEnvResult h =
      match lookupTable desktop_env_names raw with
      | some v =>
        (.ok v, ["ENV: The process doublecheck was bypassed because psutil was not imported."])
      | none =>
        (.ok raw, ["Desktop Environment not in de_names list! Should fix this.",
                   "ENV: The process doublecheck was bypassed because psutil was not imported."]) := by
  unfold desktopEnvResult
  rw [h1]
  rcases hl : lookupTable desktop_env_names raw with _ | v <;>
    simp [pyOr, pyTruthy, h2, h3, hl]

/-- Composition of the three sections into the returned dictionary. -/
theorem get_env_info_of_parts (h : Host) (st de : String) (log2 : List String)
    (hs : sessionTypeResult h = (.ok st, []))
    (hd : desktopEnvResult h = (.ok de, log2)) :
    get_env_info h =
      (.ok [("DISTRO_NAME", (lookupTable distro_names (distroNameRaw h)).getD (distroNameRaw h)),
            ("SESSION_TYPE", st), ("DESKTOP_ENV", de)],
       log2) := by
  unfold get_env_info
  rw [hs, hd]
  simp

/-- A raw name matched by no table key scans to `none`. -/
theorem lookupTable_eq_none (table : List (String × String)) (raw : String)
    (h : ∀ kv ∈ table, reSearchCI kv.1 raw = false) :
    lookupTable table raw = none := by
  induction table with
  | nil => rfl
  | cons kv rest ih =>
    obtain ⟨k, v⟩ := kv
    have hk := h (k, v) (by simp)
    simp only [lookupTable]
    simp only at hk
    rw [hk]
    simp only [Bool.false_eq_true, ite_false]
    exact ih (fun x hx => h x (by simp [hx]))

/-- Claim C8: the normalization table maps raw `Plasma` to `kde` and raw
`SwayWM` to `sway` (case-insensitive substring match, first entry wins); a
raw name matching no entry passes through unchanged and a diagnostic is
emitted — all under the claim's assumption that no corroborating shell
process overrides the guess (psutil unavailable). -/
theorem C8_desktop_normalization :
    (∀ h : Host, h.xdg_session_desktop = some "Plasma" →
       h.xdg_session_type = some "wayland" → h.psutil_available = false →
       ∃ d log, get_env_info h = (.ok d, log) ∧ dictGet "DESKTOP_ENV" d = some "kde")
  ∧ (∀ h : Host, h.xdg_session_desktop = some "SwayWM" →
       h.xdg_session_type = some "wayland" → h.psutil_available = false →
       ∃ d log, get_env_info h = (.ok d, log) ∧ dictGet "DESKTOP_ENV" d = some "sway")
  ∧ (∀ (h : Host) (raw : String), h.xdg_session_desktop = some raw → raw ≠ "" →
       (∀ kv ∈ desktop_env_names, reSearchCI kv.1 raw = false) →
       h.xdg_session_type = some "wayland" → h.psutil_available = false →
       ∃ d log, get_env_info h = (.ok d, log) ∧ dictGet "DESKTOP_ENV" d = some raw ∧
         "Desktop Environment not in de_names list! Should fix this." ∈ log) := by
  refine ⟨?_, ?_, ?_⟩
  · intro h hd hs hp
    have hsession := sessionTypeResult_some_ok h "wayland" hs (by decide) (by decide)
    have hdesk := desktopEnvResult_nopsutil h "Plasma" hd (by decide) hp
    rw [(by decide : lookupTable desktop_env_names "Plasma" = some "kde")] at hdesk
    exact ⟨_, _, get_env_info_of_parts h "wayland" "kde" _ hsession hdesk, rfl⟩
  · intro h hd hs hp
    have hsession := sessionTypeResult_some_ok h "wayland" hs (by decide) (by decide)
    have hdesk := desktopEnvResult_nopsutil h "SwayWM" hd (by decide) hp
    rw [(by decide : lookupTable desktop_env_names "SwayWM" = some "sway")] at hdesk
    exact ⟨_, _, get_env_info_of_parts h "wayland" "sway" _ hsession hdesk, rfl⟩
  · intro h raw hd hraw hnone hs hp
    have hsession := sessionTypeResult_some_ok h "wayland" hs (by decide) (by decide)
    have hdesk := desktopEnvResult_nopsutil h raw hd hraw hp
    rw [lookupTable_eq_none desktop_env_names raw hnone] at hdesk
    refine ⟨_, _, get_env_info_of_parts h "wayland" raw _ hsession hdesk, rfl, ?_⟩
    simp

/-- Witness for C8 at the three concrete hosts. -/
theorem C8_desktop_normalization_witness :
    (∃ d log, get_env_info hostPlasma = (.ok d, log) ∧ dictGet "DESKTOP_ENV" d = some "kde")
  ∧ (∃ d log, get_env_info hostSway = (.ok d, log) ∧ dictGet "DESKTOP_ENV" d = some "sway")
  ∧ (∃ d log, get_env_info hostWeston = (.ok d, log) ∧ dictGet "DESKTOP_ENV" d = some "Weston" ∧
       "Desktop Environment not in de_names list! Should fix this." ∈ log) :=
  ⟨C8_desktop_normalization.1 hostPlasma rfl rfl rfl,
   C8_desktop_normalization.2.1 hostSway rfl rfl rfl,
   C8_desktop_normalization.2.2 hostWeston "Weston" rfl (by decide) (by decide) rfl rfl⟩

/-- The session-type section only returns values whose casefold is one of
the three accepted session types. -/
theorem sessionTypeCheck_ok (st s : String) (log log2 : List String)
    (he : sessionTypeCheck st log = (.ok s, log2)) :
    pyCasefold s ∈ ["x11", "xorg", "wayland"] := by
  unfold sessionTypeCheck at he
  split_ifs at he with hc
  · rw [Prod.mk.injEq] at he
    obtain ⟨h1, -⟩ := he
    injection h1 with h1
    rw [← h1]
    exact hc
  · rw [Prod.mk.injEq] at he
    obtain ⟨h1, -⟩ := he
    exact absurd h1 (by simp)

/-- Inversion of the whole session-type section on success. -/
theorem sessionTypeResult_ok (h : Host) (s : String) (log : List String)
    (he : sessionTypeResult h = (.ok s, log)) :
    pyCasefold s ∈ ["x11", "xorg", "wayland"] := by
  unfold sessionTypeResult at he
  rcases hx : pyTruthy h.xdg_session_type with _ | st
  · rw [hx] at he
    rcases hw : h.wayland_display with _ | wd
    · rw [hw] at he
      simp at he
    · rw [hw] at he
      by_cases hwe : wd = ""
      · simp [hwe] at he
      · simp only [hwe, ite_false, if_neg] at he
        exact sessionTypeCheck_ok wd s _ _ he
  · rw [hx] at he
    exact sessionTypeCheck_ok st s _ _ he

/-- Every successful `get_env_info` call returns exactly the three-key
dictionary, with an accepted session-type value. -/
theorem get_env_info_ok_shape (h : Host) (d : EnvDict) (log : List String)
    (he : get_env_info h = (.ok d, log)) :
    ∃ dn st de, d = [("DISTRO_NAME", dn), ("SESSION_TYPE", st), ("DESKTOP_ENV", de)]
      ∧ pyCasefold st ∈ ["x11", "xorg", "wayland"] := by
  unfold get_env_info at he
  rcases hs : sessionTypeResult h with ⟨es, log1⟩
  rw [hs] at he
  cases es with
  | error e => simp at he
  | ok st =>
    rcases hd : desktopEnvResult h with ⟨ed, log2⟩
    rw [hd] at he
    cases ed with
    | error e => simp at he
    | ok de =>
      rw [Prod.mk.injEq] at he
      obtain ⟨h1, -⟩ := he
      injection h1 with h1
      exact ⟨_, st, de, h1.symm, sessionTypeResult_ok h st log1 hs⟩

/-- Claim C9 (amended): every successful probe returns a dictionary with
exactly the three string fields `DISTRO_NAME`, `SESSION_TYPE` and
`DESKTOP_ENV`; there is no distro-version field (`DISTRO_VER` reads back as
`None`), and the session type is any value whose casefold is `x11`, `xorg`
or `wayland` — not a member of the enumeration `x11 / wayland / unknown`. -/
theorem C9_snapshot_shape (h : Host) (d : EnvDict) (log : List String)
    (he : get_env_info h = (.ok d, log)) :
    (∃ dn st de,
       d = [("DISTRO_NAME", dn), ("SESSION_TYPE", st), ("DESKTOP_ENV", de)] ∧
       pyCasefold st ∈ ["x11", "xorg", "wayland"]) ∧
    dictGet "DISTRO_VER" d = none := by
  obtain ⟨dn, st, de, hsh, hst⟩ := get_env_info_ok_shape h d log he
  refine ⟨⟨dn, st, de, hsh, hst⟩, ?_⟩
  rw [hsh]
  rfl

/-- Witness for C9 at the concrete `xorg` host. -/
theorem C9_snapshot_shape_witness :
    (∃ dn st de,
       ([("DISTRO_NAME", ""), ("SESSION_TYPE", "xorg"), ("DESKTOP_ENV", "kde")] : EnvDict) =
         [("DISTRO_NAME", dn), ("SESSION_TYPE", st), ("DESKTOP_ENV", de)] ∧
       pyCasefold st ∈ ["x11", "xorg", "wayland"]) ∧
    dictGet "DISTRO_VER"
      [("DISTRO_NAME", ""), ("SESSION_TYPE", "xorg"), ("DESKTOP_ENV", "kde")] = none :=
  C9_snapshot_shape hostXorg
    [("DISTRO_NAME", ""), ("SESSION_TYPE", "xorg"), ("DESKTOP_ENV", "kde")]
    ["ENV: The process doublecheck was bypassed because psutil was not imported."] rfl

/-- Counterexample to C9 as stated: a successful probe whose dictionary has
no distro-version field at all and whose session type is `xorg`, a value
outside the claimed enumeration. -/
theorem C9_counterexample :
    (get_env_info hostXorg).1 =
      .ok [("DISTRO_NAME", ""), ("SESSION_TYPE", "xorg"), ("DESKTOP_ENV", "kde")]
    ∧ dictGet "DISTRO_VER"
        [("DISTRO_NAME", ""), ("SESSION_TYPE", "xorg"), ("DESKTOP_ENV", "kde")] = none
    ∧ "xorg" ∉ (["x11", "wayland", "unknown"] : List String) :=
  ⟨rfl, rfl, by decide⟩
